import Mathlib

/-!
Shallow embedding of the trusted-advisor-tools remediation handlers.

Each AWS Lambda handler is modelled as a pure Lean function from
(configuration, inbound event, provider behaviour) to a pair of
  * an `Except PyErr HandlerResponse` — the Python return value or the
    exception that escapes the handler, and
  * the list of provider API calls the handler issued, in order.
Provider behaviour (the outcome of each boto3 call) is passed in as data,
since the handlers themselves perform no computation beyond branching on
those outcomes.  `ClientError` outcomes are identified by their error code
string, exactly as the Python code branches on `e.response['Error']['Code']`.
-/

namespace TrustedAdvisor

/-- The `{'statusCode': ..., 'body': ...}` dict a handler returns; some
handlers return no `body` key, hence the `Option`. -/
structure HandlerResponse where
  statusCode : Nat
  body : Option String
deriving DecidableEq, Repr

/-- An exception escaping a handler: `ValueError` from input validation,
a re-raised botocore `ClientError` (identified by its error code), or any
other exception (e.g. a urllib error re-raised by a webhook sender). -/
inductive PyErr where
  | valueError (msg : String)
  | clientError (code : String)
  | otherError (msg : String)
deriving DecidableEq, Repr

/-- Outcome of one provider API call: success with a payload, or a
`ClientError` carrying an error code. -/
abbrev ApiResult (α : Type) := Except String α

/-- Python truthiness of an optional string (`None` and `''` are falsy). -/
def pyTruthy (o : Option String) : Bool :=
  match o with
  | none => false
  | some s => !(s == "")

/-- Python `str(...)` of an optional string (`str(None) = 'None'`). -/
def pyStr (o : Option String) : String :=
  o.getD "None"

/-- Python `str(...)` of a boolean (`str(True) = 'True'`). -/
def pyBool (b : Bool) : String :=
  if b then "True" else "False"

/-- Python `s.startswith(pre)`, as a character-list prefix test. -/
def pyStartsWith (s pre : String) : Bool :=
  pre.data.isPrefixOf s.data

/-- `json.dumps({'message': m})` for a message without escape-needing
characters. -/
def jsonMessage (m : String) : String :=
  "\x7b\"message\": \"" ++ m ++ "\"\x7d"

/-- Drop matching characters from both ends of a character list (the core
of Python's `str.strip(chars)`). -/
def stripEnds (p : Char → Bool) (l : List Char) : List Char :=
  ((l.dropWhile p).reverse.dropWhile p).reverse

/-- Python `s.strip('+')`: remove `'+'` characters from both ends only. -/
def pyStripPlus (s : String) : String :=
  String.mk (stripEnds (fun c => c == '+') s.data)

/-- Characters Python's `int()` tolerates around a numeral. -/
def pyWhitespace (c : Char) : Bool :=
  c == ' ' || c == '\t' || c == '\n' || c == '\r' || c == '\x0b' || c == '\x0c'

/-- Decimal value of a digit list. -/
def digitsToNat (ds : List Char) : Nat :=
  ds.foldl (fun a c => 10 * a + (c.toNat - 48)) 0

/-- A nonempty all-digit character list. -/
def allDigits1 (l : List Char) : Bool :=
  !l.isEmpty && l.all Char.isDigit

/-- Python `int(s)` with base 10: optional surrounding whitespace, optional
single sign, then a nonempty digit run; anything else raises `ValueError`
(modelled as `none`).  (Underscore digit grouping is not modelled; no input
in this development uses it.) -/
def pyInt (s : String) : Option Int :=
  match stripEnds pyWhitespace s.data with
  | [] => none
  | c :: cs =>
    if c = '-' then
      if allDigits1 cs then some (-(digitsToNat cs : Int)) else none
    else if c = '+' then
      if allDigits1 cs then some ((digitsToNat cs : Int)) else none
    else
      if allDigits1 (c :: cs) then some ((digitsToNat (c :: cs) : Int)) else none

/-! ## AmazonRDSIdleDBInstances — remove_idle_rds_databases.py -/

/-- The `check-item-detail` keys the RDS handler reads. -/
structure RDSCheckItemDetail where
  region : Option String
  dbInstanceName : Option String
  daysSinceLastConnection : Option String
deriving DecidableEq, Repr

/-- The `detail` object of an RDS event. -/
structure RDSDetail where
  checkItemDetail : Option RDSCheckItemDetail
deriving DecidableEq, Repr

/-- An inbound RDS idle-database event. -/
structure RDSEvent where
  detail : Option RDSDetail
deriving DecidableEq, Repr

/-- Environment configuration of the RDS handler. -/
structure RDSConfig where
  minAge : Int
  terminationMethod : String
  snsTopicArn : String
  accountId : String
deriving DecidableEq, Repr

/-- Outcomes of the provider calls the RDS handler can make. -/
structure RDSProvider where
  stopResult : ApiResult Unit
  deleteResult : ApiResult Unit
  snsPublishResult : ApiResult Unit
deriving Repr

/-- Provider API calls issued by the RDS handler. -/
inductive RDSCall where
  | stopDbInstance (name : Option String)
  | deleteDbInstance (name : Option String) (finalSnapshotId : String)
  | snsPublish (subject message : String)
deriving DecidableEq, Repr

/-- `int(str(days_since_connection).strip('+'))` — the decoder of the
"Days Since Last Connection" field. -/
def parseDays (s : String) : Option Int :=
  pyInt (pyStripPlus s)

/-- `_send_notification`: skipped when no topic is configured; a
`ClientError` from `sns.publish` is caught and logged, so the outcome of
the publish never affects the caller — only the issued call is recorded. -/
def sendNotification (cfg : RDSConfig) (message : String) : List RDSCall :=
  if cfg.snsTopicArn = "" then []
  else [RDSCall.snsPublish
    ("RDS Idle Database Termination Notification (" ++ cfg.accountId ++ ")") message]

/-- `_stop_db_instance`. -/
def stopDbInstance (cfg : RDSConfig) (prov : RDSProvider) (name : Option String) :
    Except PyErr HandlerResponse × List RDSCall :=
  match prov.stopResult with
  | .ok _ =>
    (Except.ok ⟨200, some (jsonMessage "Database instance stopped")⟩,
      RDSCall.stopDbInstance name ::
        sendNotification cfg ("Database instance " ++ pyStr name ++ " has been stopped."))
  | .error code =>
    if code = "DBInstanceNotFound" then
      (Except.ok ⟨200, some (jsonMessage ("DB instance " ++ pyStr name ++ " not found"))⟩,
        [RDSCall.stopDbInstance name])
    else if code = "InvalidDBInstanceState" then
      (Except.ok ⟨200, some (jsonMessage ("DB instance " ++ pyStr name ++ " already stopped"))⟩,
        [RDSCall.stopDbInstance name])
    else
      (Except.error (PyErr.clientError code), [RDSCall.stopDbInstance name])

/-- `_delete_db_instance` (deletes with a final snapshot named
`{name}-final-snapshot`). -/
def deleteDbInstance (cfg : RDSConfig) (prov : RDSProvider) (name : Option String) :
    Except PyErr HandlerResponse × List RDSCall :=
  let snapshotId := pyStr name ++ "-final-snapshot"
  match prov.deleteResult with
  | .ok _ =>
    (Except.ok ⟨200, some (jsonMessage "Database instance deleted")⟩,
      RDSCall.deleteDbInstance name snapshotId ::
        sendNotification cfg ("Database instance " ++ pyStr name ++
          " has been deleted.\nFinal snapshot: " ++ snapshotId))
  | .error code =>
    if code = "DBInstanceNotFound" then
      (Except.ok ⟨200, some (jsonMessage ("DB instance " ++ pyStr name ++ " not found"))⟩,
        [RDSCall.deleteDbInstance name snapshotId])
    else
      (Except.error (PyErr.clientError code), [RDSCall.deleteDbInstance name snapshotId])

/-- `lambda_handler` of remove_idle_rds_databases.py. -/
def rdsLambdaHandler (cfg : RDSConfig) (prov : RDSProvider) (ev : RDSEvent) :
    Except PyErr HandlerResponse × List RDSCall :=
  match ev.detail with
  | none => (Except.error (PyErr.valueError "Invalid Trusted Advisor event structure"), [])
  | some detail =>
    match detail.checkItemDetail with
    | none => (Except.error (PyErr.valueError "Invalid Trusted Advisor event structure"), [])
    | some details =>
      let daysSinceConnection := details.daysSinceLastConnection.getD "0"
      match parseDays daysSinceConnection with
      | none =>
        (Except.error (PyErr.valueError "invalid literal for int() with base 10"), [])
      | some lastConnection =>
        if lastConnection < cfg.minAge then
          (Except.ok ⟨200, some "Below threshold, no action taken"⟩, [])
        else if cfg.terminationMethod = "delete" then
          deleteDbInstance cfg prov details.dbInstanceName
        else
          stopDbInstance cfg prov details.dbInstanceName

/-- Does a call stop or delete a database instance? -/
def isMutatingRDSCall : RDSCall → Bool
  | .stopDbInstance _ => true
  | .deleteDbInstance _ _ => true
  | .snsPublish _ _ => false

/-! ## IAMPasswordPolicy — set_password_policy/app.py -/

/-- The fields of `get_account_password_policy()['PasswordPolicy']` the
handler reads; each is optional because the policy dict may omit it. -/
structure PasswordPolicy where
  minimumPasswordLength : Option Int
  requireSymbols : Option Bool
  requireNumbers : Option Bool
  requireUppercaseCharacters : Option Bool
  requireLowercaseCharacters : Option Bool
  allowUsersToChangePassword : Option Bool
  passwordReusePrevention : Option Int
  maxPasswordAge : Option Int
  hardExpiry : Option Bool
deriving DecidableEq, Repr

/-- The `{}` returned by `_get_current_policy` when no policy exists. -/
def emptyPolicy : PasswordPolicy :=
  ⟨none, none, none, none, none, none, none, none, none⟩

/-- The keyword arguments of `update_account_password_policy`, all of which
the handler supplies. -/
structure UpdatePolicyParams where
  minimumPasswordLength : Int
  requireSymbols : Bool
  requireNumbers : Bool
  requireUppercaseCharacters : Bool
  requireLowercaseCharacters : Bool
  allowUsersToChangePassword : Bool
  passwordReusePrevention : Int
  maxPasswordAge : Int
  hardExpiry : Bool
deriving DecidableEq, Repr

/-- Environment-sourced defaults of the password-policy handler. -/
structure IAMConfig where
  defaultMinLength : Int
  defaultMaxAge : Int
  defaultReusePrevention : Int
deriving DecidableEq, Repr

/-- Outcomes of the two IAM calls the handler can make. -/
structure IAMProvider where
  getPolicyResult : ApiResult PasswordPolicy
  updateResult : ApiResult Unit
deriving Repr

/-- Provider API calls issued by the password-policy handler. -/
inductive IAMCall where
  | getAccountPasswordPolicy
  | updateAccountPasswordPolicy (params : UpdatePolicyParams)
deriving DecidableEq, Repr

/-- The `detail` object of a password-policy event. -/
structure IAMDetail where
  status : Option String
deriving DecidableEq, Repr

/-- An inbound password-policy event. -/
structure IAMEvent where
  detail : Option IAMDetail
deriving DecidableEq, Repr

/-- `_get_current_policy`: `NoSuchEntity` becomes the empty policy, any
other `ClientError` is re-raised. -/
def getCurrentPolicy (prov : IAMProvider) :
    Except PyErr PasswordPolicy × List IAMCall :=
  match prov.getPolicyResult with
  | .ok p => (Except.ok p, [IAMCall.getAccountPasswordPolicy])
  | .error code =>
    if code = "NoSuchEntity" then
      (Except.ok emptyPolicy, [IAMCall.getAccountPasswordPolicy])
    else
      (Except.error (PyErr.clientError code), [IAMCall.getAccountPasswordPolicy])

/-- The argument list `_update_password_policy` builds: four requirement
flags are hard-coded `True`; the remaining fields come from the current
policy when present, otherwise from the configured defaults. -/
def updateParamsFor (cfg : IAMConfig) (cur : PasswordPolicy) : UpdatePolicyParams where
  minimumPasswordLength := cur.minimumPasswordLength.getD cfg.defaultMinLength
  requireSymbols := true
  requireNumbers := true
  requireUppercaseCharacters := true
  requireLowercaseCharacters := true
  allowUsersToChangePassword := cur.allowUsersToChangePassword.getD true
  passwordReusePrevention := cur.passwordReusePrevention.getD cfg.defaultReusePrevention
  maxPasswordAge := cur.maxPasswordAge.getD cfg.defaultMaxAge
  hardExpiry := cur.hardExpiry.getD false

/-- `_update_password_policy`: issue the update; a `ClientError` is logged
and re-raised. -/
def updatePasswordPolicy (cfg : IAMConfig) (prov : IAMProvider) (cur : PasswordPolicy) :
    Except PyErr HandlerResponse × List IAMCall :=
  let params := updateParamsFor cfg cur
  match prov.updateResult with
  | .ok _ =>
    (Except.ok ⟨200, some "\x7b\"response\": \"Policy updated\"\x7d"⟩,
      [IAMCall.updateAccountPasswordPolicy params])
  | .error code =>
    (Except.error (PyErr.clientError code), [IAMCall.updateAccountPasswordPolicy params])

/-- `lambda_handler` of set_password_policy/app.py. -/
def iamLambdaHandler (cfg : IAMConfig) (prov : IAMProvider) (ev : IAMEvent) :
    Except PyErr HandlerResponse × List IAMCall :=
  match ev.detail with
  | none => (Except.error (PyErr.valueError "Invalid Trusted Advisor event structure"), [])
  | some detail =>
    if detail.status ≠ some "WARN" then
      (Except.ok ⟨200, some "No action needed"⟩, [])
    else
      match getCurrentPolicy prov with
      | (.error e, calls) => (Except.error e, calls)
      | (.ok cur, calls) =>
        let (r, moreCalls) := updatePasswordPolicy cfg prov cur
        (r, calls ++ moreCalls)

/-! ## S3BucketVersioning — lambda/app.py -/

/-- A resource tag. -/
structure Tag where
  key : String
  value : String
deriving DecidableEq, Repr

/-- The `check-item-detail` keys the versioning handler reads. -/
structure S3VItem where
  bucketName : Option String
deriving DecidableEq, Repr

/-- The `detail` object of a versioning event. -/
structure S3VDetail where
  checkItemDetail : Option S3VItem
deriving DecidableEq, Repr

/-- An inbound bucket-versioning event. -/
structure S3VEvent where
  detail : Option S3VDetail
deriving DecidableEq, Repr

/-- Environment configuration of the versioning handler. -/
structure S3VConfig where
  excludeTag : String
deriving DecidableEq, Repr

/-- Outcomes of the two S3 calls the versioning handler can make; the
tagging result's `TagSet` defaults to `[]` in the code (`tags.get('TagSet',
[])`), so the success payload is the tag list itself. -/
structure S3VProvider where
  taggingResult : ApiResult (List Tag)
  putVersioningResult : ApiResult Unit
deriving Repr

/-- Provider API calls issued by the versioning handler. -/
inductive S3VCall where
  | getBucketTagging (bucket : String)
  | putBucketVersioning (bucket : String)
deriving DecidableEq, Repr

/-- `_has_exclusion_tag`: `NoSuchTagSet` means no tags, any other
`ClientError` is logged as a warning — both yield `False`. -/
def hasExclusionTag (cfg : S3VConfig) (prov : S3VProvider) : Bool :=
  match prov.taggingResult with
  | .ok tags => tags.any (fun t => t.key == cfg.excludeTag)
  | .error _ => false

/-- `_enable_versioning`: `NoSuchBucket` and `AccessDenied` are absorbed
into a status-200 "not accessible" result; other errors re-raise. -/
def enableVersioning (prov : S3VProvider) (bucket : String) :
    Except PyErr HandlerResponse × List S3VCall :=
  match prov.putVersioningResult with
  | .ok _ =>
    (Except.ok ⟨200, some ("Bucket versioning enabled for " ++ bucket)⟩,
      [S3VCall.putBucketVersioning bucket])
  | .error code =>
    if code = "NoSuchBucket" ∨ code = "AccessDenied" then
      (Except.ok ⟨200, some ("Bucket " ++ bucket ++ " not accessible: " ++ code)⟩,
        [S3VCall.putBucketVersioning bucket])
    else
      (Except.error (PyErr.clientError code), [S3VCall.putBucketVersioning bucket])

/-- `lambda_handler` of S3BucketVersioning/lambda/app.py. -/
def s3vLambdaHandler (cfg : S3VConfig) (prov : S3VProvider) (ev : S3VEvent) :
    Except PyErr HandlerResponse × List S3VCall :=
  match ev.detail with
  | none => (Except.error (PyErr.valueError "Invalid Trusted Advisor event structure"), [])
  | some detail =>
    match detail.checkItemDetail with
    | none => (Except.error (PyErr.valueError "Invalid Trusted Advisor event structure"), [])
    | some item =>
      if !pyTruthy item.bucketName then
        (Except.error (PyErr.valueError "Missing Bucket Name in event"), [])
      else
        let bucket := pyStr item.bucketName
        if hasExclusionTag cfg prov then
          (Except.ok ⟨200, some ("Bucket versioning intentionally disabled for " ++ bucket)⟩,
            [S3VCall.getBucketTagging bucket])
        else
          let (r, calls) := enableVersioning prov bucket
          (r, S3VCall.getBucketTagging bucket :: calls)

/-! ## UnassociatedElasticIPs — remove_elastic_IP/app.py -/

/-- The `check-item-detail` keys the Elastic-IP handler reads. -/
structure EIPItem where
  region : Option String
  ipAddress : Option String
deriving DecidableEq, Repr

/-- The `detail` object of an Elastic-IP event. -/
structure EIPDetail where
  checkItemDetail : Option EIPItem
deriving DecidableEq, Repr

/-- An inbound Elastic-IP event. -/
structure EIPEvent where
  detail : Option EIPDetail
deriving DecidableEq, Repr

/-- Environment configuration of the Elastic-IP handler. -/
structure EIPConfig where
  dryRun : Bool
  excludeTagKey : String
  excludeTagValue : String
deriving DecidableEq, Repr

/-- One entry of `describe_addresses(...)['Addresses']`; only
`AllocationId` is read. -/
structure Address where
  allocationId : String
deriving DecidableEq, Repr

/-- Outcomes of the three EC2 calls the Elastic-IP handler can make. -/
structure EIPProvider where
  describeAddressesResult : ApiResult (List Address)
  describeTagsResult : ApiResult (List Tag)
  releaseResult : ApiResult Unit
deriving Repr

/-- Provider API calls issued by the Elastic-IP handler. -/
inductive EC2Call where
  | describeAddresses (ip : String)
  | describeTags (allocationId : String)
  | releaseAddress (dryRun : Bool) (allocationId : String)
deriving DecidableEq, Repr

/-- `_should_exclude`: tag match on the configured key with the tag value
lower-cased; any `ClientError` from `describe_tags` yields `False`. -/
def shouldExclude (cfg : EIPConfig) (prov : EIPProvider) : Bool :=
  match prov.describeTagsResult with
  | .ok tags =>
    tags.any (fun t => t.key == cfg.excludeTagKey && t.value.toLower == cfg.excludeTagValue)
  | .error _ => false

/-- `_release_address`: `DryRunOperation` is absorbed into a status-200
result; other errors re-raise. -/
def releaseAddress (cfg : EIPConfig) (prov : EIPProvider) (eip allocationId : String) :
    Except PyErr HandlerResponse × List EC2Call :=
  match prov.releaseResult with
  | .ok _ =>
    (Except.ok ⟨200, some ("Elastic IP " ++ eip ++ " released (DryRun=" ++
        pyBool cfg.dryRun ++ ")")⟩,
      [EC2Call.releaseAddress cfg.dryRun allocationId])
  | .error code =>
    if code = "DryRunOperation" then
      (Except.ok ⟨200, some ("DryRun: Would release " ++ eip)⟩,
        [EC2Call.releaseAddress cfg.dryRun allocationId])
    else
      (Except.error (PyErr.clientError code), [EC2Call.releaseAddress cfg.dryRun allocationId])

/-- `lambda_handler` of remove_elastic_IP/app.py. -/
def eipLambdaHandler (cfg : EIPConfig) (prov : EIPProvider) (ev : EIPEvent) :
    Except PyErr HandlerResponse × List EC2Call :=
  match ev.detail with
  | none => (Except.error (PyErr.valueError "Invalid Trusted Advisor event structure"), [])
  | some detail =>
    match detail.checkItemDetail with
    | none => (Except.error (PyErr.valueError "Invalid Trusted Advisor event structure"), [])
    | some item =>
      if !pyTruthy item.region || !pyTruthy item.ipAddress then
        (Except.error (PyErr.valueError "Missing region or IP Address in event"), [])
      else
        let eip := pyStr item.ipAddress
        match prov.describeAddressesResult with
        | .error code =>
          if code = "InvalidAddress.NotFound" then
            (Except.ok ⟨200, some ("Elastic IP " ++ eip ++ " not found")⟩,
              [EC2Call.describeAddresses eip])
          else
            (Except.error (PyErr.clientError code), [EC2Call.describeAddresses eip])
        | .ok [] =>
          (Except.ok ⟨200, some ("Elastic IP " ++ eip ++ " not found")⟩,
            [EC2Call.describeAddresses eip])
        | .ok (addr :: _) =>
          let allocationId := addr.allocationId
          if shouldExclude cfg prov then
            (Except.ok ⟨200, some ("Elastic IP " ++ eip ++ " excluded by tag")⟩,
              [EC2Call.describeAddresses eip, EC2Call.describeTags allocationId])
          else
            let (r, calls) := releaseAddress cfg prov eip allocationId
            (r, EC2Call.describeAddresses eip :: EC2Call.describeTags allocationId :: calls)

/-! ## S3IncompleteMPUAbort — apply_lifecycle/app.py, `_apply_lifecycle_policy` -/

/-- A bucket lifecycle rule; only the nested
`AbortIncompleteMultipartUpload.DaysAfterInitiation` value is ever read
(`r.get('AbortIncompleteMultipartUpload', {}).get('DaysAfterInitiation')`),
so absent nesting is `none`.  The `Filter` field (an empty mapping in the
one rule the code writes, never read) is not modelled. -/
structure LifecycleRule where
  id : Option String
  status : Option String
  abortDaysAfterInitiation : Option Int
deriving DecidableEq, Repr

/-- The rule the executor appends. -/
def abortRule : LifecycleRule :=
  { id := some "AbortIncompleteMultipartUploads"
    status := some "Enabled"
    abortDaysAfterInitiation := some 7 }

/-- A bucket's lifecycle configuration: `none` means the bucket has none,
so `get_bucket_lifecycle_configuration` raises
`NoSuchLifecycleConfiguration`. -/
structure BucketLifecycle where
  rules : Option (List LifecycleRule)
deriving DecidableEq, Repr

/-- Behaviour of the provider during one run of the lifecycle executor:
whether `_get_cross_account_client` produced a client (vs `None`), an
injected `ClientError` code on the `get` other than
`NoSuchLifecycleConfiguration`, and an injected `ClientError` code on the
`put`. -/
structure MPUProvider where
  clientOk : Bool
  getOtherError : Option String
  putError : Option String
deriving DecidableEq, Repr

/-- Provider API calls issued by the lifecycle executor. -/
inductive S3LCall where
  | getBucketLifecycleConfiguration (bucket : String)
  | putBucketLifecycleConfiguration (bucket : String) (rules : List LifecycleRule)
deriving DecidableEq, Repr

/-- `_apply_lifecycle_policy`: fetch current rules (absent configuration
becomes `[]`, any other `ClientError` is logged and ends the run), skip
when some rule already aborts after 7 days, otherwise append the abort
rule and put; a `ClientError` on the put is logged, not raised.  The
function never raises, so its result is the new bucket state and the
calls issued. -/
def applyLifecyclePolicy (prov : MPUProvider) (bucket : String) (st : BucketLifecycle) :
    BucketLifecycle × List S3LCall :=
  if !prov.clientOk then (st, [])
  else
    match prov.getOtherError with
    | some _ => (st, [S3LCall.getBucketLifecycleConfiguration bucket])
    | none =>
      let rules := st.rules.getD []
      if rules.any (fun r => r.abortDaysAfterInitiation == some 7) then
        (st, [S3LCall.getBucketLifecycleConfiguration bucket])
      else
        let newRules := rules ++ [abortRule]
        match prov.putError with
        | none =>
          ({ rules := some newRules },
            [S3LCall.getBucketLifecycleConfiguration bucket,
             S3LCall.putBucketLifecycleConfiguration bucket newRules])
        | some _ =>
          (st,
            [S3LCall.getBucketLifecycleConfiguration bucket,
             S3LCall.putBucketLifecycleConfiguration bucket newRules])

/-- Is a call a lifecycle put? -/
def isPutLifecycle : S3LCall → Bool
  | .getBucketLifecycleConfiguration _ => false
  | .putBucketLifecycleConfiguration _ _ => true

/-! ## ExposedAccessKeys — notify_security.py -/

/-- Environment configuration of the security notifier (`TOPIC_ARN` is
required, `SlackWebhook_URL` defaults to the empty string). -/
structure NotifyConfig where
  topicArn : String
  slackWebhookUrl : String
deriving DecidableEq, Repr

/-- The event fields `lambda_handler` reads (all accessed with mandatory
indexing; the summaries are lists of (name, count) pairs). -/
structure NotifyEvent where
  accountId : String
  username : String
  deletedKey : String
  exposedLocation : String
  timeDiscovered : String
  eventNames : List (String × String)
  resourceNames : List (String × String)
  resourceTypes : List (String × String)
deriving DecidableEq, Repr

/-- Behaviour of the notifier's two delivery channels: the SNS publish
outcome, and whether the Slack POST succeeded (its failure is caught
whatever the exception, so only success/failure is distinguished). -/
structure NotifyProvider where
  snsPublishResult : ApiResult Unit
  slackPostOk : Bool
deriving Repr

/-- Delivery calls issued by the security notifier. -/
inductive NotifyCall where
  | snsPublish (subject message : String)
  | httpPost (url text : String)
deriving DecidableEq, Repr

/-- `_format_summary`. -/
def formatSummary (items : List (String × String)) : String :=
  "\t" ++ String.intercalate "\n\t" (items.map (fun p => p.1 ++ ": " ++ p.2))

/-- The `TEMPLATE.format(...)` message body. -/
def notifyMessage (ev : NotifyEvent) : String :=
  "At " ++ ev.timeDiscovered ++ " the IAM access key " ++ ev.deletedKey ++
  " for user " ++ ev.username ++ " on account " ++ ev.accountId ++
  " was deleted after it was found to have been exposed at the URL " ++
  ev.exposedLocation ++
  ".\nBelow are summaries of the most recent actions, resource names, and resource types associated with this user over the last 24 hours.\n\nActions:\n" ++
  formatSummary ev.eventNames ++
  "\n\nResource Names:\n" ++
  formatSummary ev.resourceNames ++
  "\n\nResource Types:\n" ++
  formatSummary ev.resourceTypes ++
  "\n\nThese are summaries of only the most recent API calls made by this user. Please ensure your account remains secure by further reviewing the API calls made by this user in CloudTrail."

/-- The alert subject line. -/
def notifySubject (ev : NotifyEvent) : String :=
  "Security Alert! IAM Access Key Exposed For User " ++ ev.username ++
  " On Account " ++ ev.accountId ++ "!!"

/-- `lambda_handler` of notify_security.py: `_publish_sns` logs and
RE-RAISES a `ClientError`; `_notify_slack` (reached only for a nonempty
webhook URL) swallows any failure.  On success the handler returns
`{'statusCode': 200}` with no body. -/
def notifySecurityHandler (cfg : NotifyConfig) (prov : NotifyProvider) (ev : NotifyEvent) :
    Except PyErr HandlerResponse × List NotifyCall :=
  let subject := notifySubject ev
  let message := notifyMessage ev
  match prov.snsPublishResult with
  | .error code =>
    (Except.error (PyErr.clientError code), [NotifyCall.snsPublish subject message])
  | .ok _ =>
    if cfg.slackWebhookUrl ≠ "" then
      (Except.ok ⟨200, none⟩,
        [NotifyCall.snsPublish subject message,
         NotifyCall.httpPost cfg.slackWebhookUrl (subject ++ " Check email for details.")])
    else
      (Except.ok ⟨200, none⟩, [NotifyCall.snsPublish subject message])

/-! ## TA-Integrations — TA-Red-Slack-Webhook.py -/

/-- One entry of `describe_trusted_advisor_checks(...)['checks']`. -/
structure TACheck where
  id : String
  name : String
  category : String
deriving DecidableEq, Repr

/-- One entry of `describe_trusted_advisor_check_summaries(...); the
monetary `estimatedMonthlySavings` is a float in the source, modelled here
as an integer — no claim depends on its arithmetic or formatting. -/
structure TASummary where
  checkId : String
  status : String
  savings : Int
deriving DecidableEq, Repr

/-- The statistics dict built by `_analyze_checks`. -/
structure SlackStats where
  critical : Nat
  warnings : Nat
  okCount : Nat
  categories : List (String × Nat)
  criticalChecks : List String
  estimatedSavings : Int
deriving DecidableEq, Repr

/-- The initial statistics dict. -/
def initialStats : SlackStats :=
  { critical := 0
    warnings := 0
    okCount := 0
    categories := [("security", 0), ("fault_tolerance", 0), ("performance", 0),
      ("cost_optimizing", 0), ("service_limits", 0)]
    criticalChecks := []
    estimatedSavings := 0 }

/-- Python `d.get(k, 0)` on a string-keyed counter dict. -/
def dictGetNat (d : List (String × Nat)) (k : String) : Nat :=
  match d.find? (fun p => p.1 == k) with
  | some p => p.2
  | none => 0

/-- Python `d[k] = v`: replace in place when the key exists, else append
(dicts preserve insertion order). -/
def dictSet (d : List (String × Nat)) (k : String) (v : Nat) : List (String × Nat) :=
  if d.any (fun p => p.1 == k) then
    d.map (fun p => if p.1 == k then (k, v) else p)
  else
    d ++ [(k, v)]

/-- One iteration of the `_analyze_checks` loop. -/
def analyzeStep (checks : List TACheck) (st : SlackStats) (s : TASummary) : SlackStats :=
  let st :=
    if s.status == "ok" then { st with okCount := st.okCount + 1 }
    else if s.status == "warning" then { st with warnings := st.warnings + 1 }
    else if s.status == "error" then
      let info := checks.find? (fun c => c.id == s.checkId)
      let category := match info with | some c => c.category | none => "unknown"
      let checkName := match info with | some c => c.name | none => "Unknown"
      { st with
        critical := st.critical + 1
        categories := dictSet st.categories category (dictGetNat st.categories category + 1)
        criticalChecks := st.criticalChecks ++ ["[" ++ category ++ "] " ++ checkName] }
    else st
  { st with estimatedSavings := st.estimatedSavings + s.savings }

/-- `_analyze_checks`. -/
def analyzeChecks (summaries : List TASummary) (checks : List TACheck) : SlackStats :=
  summaries.foldl (analyzeStep checks) initialStats

/-- `_build_message` (the `:.2f` float formatting of the savings is
modelled as plain rendering of the integer model). -/
def buildMessage (st : SlackStats) : String :=
  let baseLines : List String :=
    ["=== Trusted Advisor Summary ===", "",
     "🔴 Critical: " ++ toString st.critical,
     "🟡 Warnings: " ++ toString st.warnings,
     "🟢 OK: " ++ toString st.okCount, "",
     "💰 Estimated Monthly Savings: $" ++ toString st.estimatedSavings, ""]
  let lines :=
    if !st.criticalChecks.isEmpty then
      baseLines ++ ["Critical Findings:"] ++
        (st.criticalChecks.take 10).map (fun c => "  • " ++ c)
    else baseLines
  String.intercalate "\n" lines

/-- The inbound event of the cost webhook
(`event.get('SlackWebhookURL', '')`). -/
structure SlackEvent where
  slackWebhookUrl : String
deriving DecidableEq, Repr

/-- Behaviour of the cost webhook's collaborators: the two support-API
calls and the Slack POST (whose failure `_send_to_slack` logs and
re-raises). -/
structure SlackProvider where
  checksResult : ApiResult (List TACheck)
  summariesResult : ApiResult (List TASummary)
  postOk : Bool
deriving Repr

/-- Calls issued by the cost webhook. -/
inductive SupportCall where
  | describeChecks
  | describeSummaries (checkIds : List String)
  | httpPost (url text : String)
deriving DecidableEq, Repr

/-- `lambda_handler` of TA-Red-Slack-Webhook.py: empty or `'<'`-prefixed
URLs and non-HTTPS URLs are rejected with status 400 before any provider
call; support-API `ClientError`s propagate; `_send_to_slack` re-raises
any delivery failure. -/
def slackWebhookHandler (prov : SlackProvider) (ev : SlackEvent) :
    Except PyErr HandlerResponse × List SupportCall :=
  let url := ev.slackWebhookUrl
  if url == "" || pyStartsWith url "<" then
    (Except.ok ⟨400, some "Invalid webhook URL"⟩, [])
  else if !(pyStartsWith url "https://") then
    (Except.ok ⟨400, some "Webhook URL must use HTTPS"⟩, [])
  else
    match prov.checksResult with
    | .error code => (Except.error (PyErr.clientError code), [SupportCall.describeChecks])
    | .ok checks =>
      let checkIds := checks.map (fun c => c.id)
      match prov.summariesResult with
      | .error code =>
        (Except.error (PyErr.clientError code),
          [SupportCall.describeChecks, SupportCall.describeSummaries checkIds])
      | .ok summaries =>
        let stats := analyzeChecks summaries checks
        let message := buildMessage stats
        let calls := [SupportCall.describeChecks, SupportCall.describeSummaries checkIds,
          SupportCall.httpPost url message]
        if prov.postOk then
          (Except.ok ⟨200, none⟩, calls)
        else
          (Except.error (PyErr.otherError "Failed to send Slack notification"), calls)

/-! ## Supporting lemmas on the parsing helpers -/

theorem dropWhile_eq_self_of_forall {p : Char → Bool} {l : List Char}
    (h : ∀ c ∈ l, p c = false) : l.dropWhile p = l := by
  cases l with
  | nil => rfl
  | cons a t =>
    exact List.dropWhile_cons_of_neg (by simp [h a (List.mem_cons_self a t)])

theorem stripEnds_eq_self {p : Char → Bool} {l : List Char}
    (h : ∀ c ∈ l, p c = false) : stripEnds p l = l := by
  unfold stripEnds
  rw [dropWhile_eq_self_of_forall h,
    dropWhile_eq_self_of_forall (fun c hc => h c (List.mem_reverse.mp hc)),
    List.reverse_reverse]

theorem beq_false_of_isDigit {c d : Char} (h : c.isDigit = true) (hd : d.isDigit = false) :
    (c == d) = false := by
  cases hc : c == d with
  | false => rfl
  | true =>
    have hcd : c = d := eq_of_beq hc
    subst hcd
    rw [h] at hd
    simp at hd

theorem ne_of_isDigit {c d : Char} (h : c.isDigit = true) (hd : d.isDigit = false) : c ≠ d := by
  intro he
  subst he
  rw [h] at hd
  simp at hd

theorem isDigit_not_pyWhitespace {c : Char} (h : c.isDigit = true) : pyWhitespace c = false := by
  unfold pyWhitespace
  rw [beq_false_of_isDigit h (by decide), beq_false_of_isDigit h (by decide),
    beq_false_of_isDigit h (by decide), beq_false_of_isDigit h (by decide),
    beq_false_of_isDigit h (by decide), beq_false_of_isDigit h (by decide)]
  rfl

theorem pyInt_digits {ds : List Char} (hne : ds ≠ []) (hd : ∀ c ∈ ds, c.isDigit = true) :
    pyInt (String.mk ds) = some ((digitsToNat ds : Int)) := by
  have hs : stripEnds pyWhitespace (String.mk ds).data = ds :=
    stripEnds_eq_self (fun c hc => isDigit_not_pyWhitespace (hd c hc))
  cases ds with
  | nil => exact absurd rfl hne
  | cons c cs =>
    have hc : c.isDigit = true := hd c (List.mem_cons_self c cs)
    have hall : allDigits1 (c :: cs) = true := by
      unfold allDigits1
      simp only [List.isEmpty_cons, Bool.not_false, Bool.true_and]
      exact List.all_eq_true.mpr hd
    simp only [pyInt, hs]
    rw [if_neg (ne_of_isDigit hc (by decide)), if_neg (ne_of_isDigit hc (by decide)),
      if_pos hall]

theorem stripPlus_digits_append (ds : List Char) (hne : ds ≠ [])
    (hd : ∀ c ∈ ds, c.isDigit = true) (k : Nat) :
    pyStripPlus (String.mk (ds ++ List.replicate k '+')) = String.mk ds := by
  unfold pyStripPlus
  congr 1
  show stripEnds (fun c => c == '+') (ds ++ List.replicate k '+') = ds
  unfold stripEnds
  have hnp : ∀ c ∈ ds, (c == '+') = false :=
    fun c hc => beq_false_of_isDigit (hd c hc) (by decide)
  have h1 : (ds ++ List.replicate k '+').dropWhile (fun c => c == '+') =
      ds ++ List.replicate k '+' := by
    cases ds with
    | nil => exact absurd rfl hne
    | cons c cs =>
      exact List.dropWhile_cons_of_neg (by simp [hnp c (List.mem_cons_self c cs)])
  rw [h1, List.reverse_append, List.reverse_replicate,
    List.dropWhile_append_of_pos (fun a ha => by simp [List.eq_of_mem_replicate ha]),
    dropWhile_eq_self_of_forall (fun c hc => hnp c (List.mem_reverse.mp hc)),
    List.reverse_reverse]

/-! ## C7 — parsing of the "Days Since Last Connection" qualifier -/

/-- C7 counterexample: the decoder is `int(str(v).strip('+'))`, which strips
only `'+'` characters; a digits-then-other-suffix value such as `"14d"`
does not parse to 14 as the claim states — it fails, and the handler
raises `ValueError`. -/
theorem c7_counterexample :
    parseDays "14d" = none ∧ ¬ parseDays "14d" = some 14 ∧
    (rdsLambdaHandler ⟨14, "stop", "", "1"⟩ ⟨Except.ok (), Except.ok (), Except.ok ()⟩
        ⟨some ⟨some ⟨some "r", some "db", some "14d"⟩⟩⟩).1 =
      Except.error (PyErr.valueError "invalid literal for int() with base 10") := by
  refine ⟨by decide, by decide, rfl⟩

/-- C7 (amended): a nonempty digit string followed by any number of `'+'`
qualifier characters is parsed by stripping the `'+'` suffix and converting
the digits; suffixes other than `'+'` are not stripped (see the
counterexample). -/
theorem c7_plus_qualifier (ds : List Char) (hne : ds ≠ [])
    (hd : ∀ c ∈ ds, c.isDigit = true) (k : Nat) :
    parseDays (String.mk (ds ++ List.replicate k '+')) = some ((digitsToNat ds : Int)) := by
  unfold parseDays
  rw [stripPlus_digits_append ds hne hd k, pyInt_digits hne hd]

/-- C7 witness: `"14+"` parses to 14. -/
theorem c7_witness : parseDays "14+" = some 14 := by
  have h := c7_plus_qualifier ['1', '4'] (by decide) (by decide) 1
  rw [show String.mk (['1', '4'] ++ List.replicate 1 '+') = "14+" from by decide] at h
  rw [h]
  decide

/-! ## C6 — password-policy status gate -/

/-- C6: for every password-policy event whose detail status is anything
other than `'WARN'` (including absent), the handler makes no IAM call and
returns status 200 with the no-action body; the update path is gated on
`status == 'WARN'`. -/
theorem c6_status_gate (cfg : IAMConfig) (prov : IAMProvider) (st : Option String)
    (h : st ≠ some "WARN") :
    iamLambdaHandler cfg prov ⟨some ⟨st⟩⟩ =
      (Except.ok ⟨200, some "No action needed"⟩, []) := by
  simp [iamLambdaHandler, h]

/-- C6 witness: a concrete `OK`-status event is skipped with no calls. -/
theorem c6_witness :
    iamLambdaHandler ⟨12, 90, 12⟩ ⟨Except.ok emptyPolicy, Except.ok ()⟩ ⟨some ⟨some "OK"⟩⟩ =
      (Except.ok ⟨200, some "No action needed"⟩, []) :=
  c6_status_gate ⟨12, 90, 12⟩ ⟨Except.ok emptyPolicy, Except.ok ()⟩ (some "OK") (by decide)

/-! ## C1 — password-policy merge-update -/

/-- The fetched policy of the C1 counterexample: the administrator set
`RequireSymbols` and `RequireNumbers` to `False`. -/
def c1CurrentPolicy : PasswordPolicy :=
  { minimumPasswordLength := some 8
    requireSymbols := some false
    requireNumbers := some false
    requireUppercaseCharacters := none
    requireLowercaseCharacters := none
    allowUsersToChangePassword := some false
    passwordReusePrevention := some 3
    maxPasswordAge := some 30
    hardExpiry := some true }

/-- C1 counterexample: with `RequireSymbols: False` present in the fetched
policy, the WARN-path update call sends `RequireSymbols=True` (and likewise
`RequireNumbers`), so a field present in the current policy is NOT passed
unchanged — the four character-class flags are hard-coded to `True`. -/
theorem c1_counterexample :
    c1CurrentPolicy.requireSymbols = some false ∧
    c1CurrentPolicy.requireNumbers = some false ∧
    (iamLambdaHandler ⟨12, 90, 12⟩ ⟨Except.ok c1CurrentPolicy, Except.ok ()⟩
        ⟨some ⟨some "WARN"⟩⟩).2 =
      [IAMCall.getAccountPasswordPolicy,
       IAMCall.updateAccountPasswordPolicy ⟨8, true, true, true, true, false, 3, 30, true⟩] :=
  ⟨rfl, rfl, rfl⟩

/-- C1 (amended): in the WARN path the update call passes, for
`MinimumPasswordLength`, `AllowUsersToChangePassword`,
`PasswordReusePrevention`, `MaxPasswordAge` and `HardExpiry`, the current
policy's value when present and the configured default otherwise; the four
character-class requirement flags are always sent as `True`, regardless of
any value present in the current policy. -/
theorem c1_merge_update (cfg : IAMConfig) (updRes : ApiResult Unit) (cur : PasswordPolicy) :
    (iamLambdaHandler cfg ⟨Except.ok cur, updRes⟩ ⟨some ⟨some "WARN"⟩⟩).2 =
      [IAMCall.getAccountPasswordPolicy,
       IAMCall.updateAccountPasswordPolicy (updateParamsFor cfg cur)] ∧
    (∀ v, cur.minimumPasswordLength = some v →
      (updateParamsFor cfg cur).minimumPasswordLength = v) ∧
    (cur.minimumPasswordLength = none →
      (updateParamsFor cfg cur).minimumPasswordLength = cfg.defaultMinLength) ∧
    (∀ v, cur.allowUsersToChangePassword = some v →
      (updateParamsFor cfg cur).allowUsersToChangePassword = v) ∧
    (cur.allowUsersToChangePassword = none →
      (updateParamsFor cfg cur).allowUsersToChangePassword = true) ∧
    (∀ v, cur.passwordReusePrevention = some v →
      (updateParamsFor cfg cur).passwordReusePrevention = v) ∧
    (cur.passwordReusePrevention = none →
      (updateParamsFor cfg cur).passwordReusePrevention = cfg.defaultReusePrevention) ∧
    (∀ v, cur.maxPasswordAge = some v → (updateParamsFor cfg cur).maxPasswordAge = v) ∧
    (cur.maxPasswordAge = none → (updateParamsFor cfg cur).maxPasswordAge = cfg.defaultMaxAge) ∧
    (∀ v, cur.hardExpiry = some v → (updateParamsFor cfg cur).hardExpiry = v) ∧
    (cur.hardExpiry = none → (updateParamsFor cfg cur).hardExpiry = false) ∧
    (updateParamsFor cfg cur).requireSymbols = true ∧
    (updateParamsFor cfg cur).requireNumbers = true ∧
    (updateParamsFor cfg cur).requireUppercaseCharacters = true ∧
    (updateParamsFor cfg cur).requireLowercaseCharacters = true := by
  refine ⟨?_, ?_, ?_, ?_, ?_, ?_, ?_, ?_, ?_, ?_, ?_, rfl, rfl, rfl, rfl⟩
  · cases updRes <;> simp [iamLambdaHandler, getCurrentPolicy, updatePasswordPolicy]
  · intro v h
    simp [updateParamsFor, h]
  · intro h
    simp [updateParamsFor, h]
  · intro v h
    simp [updateParamsFor, h]
  · intro h
    simp [updateParamsFor, h]
  · intro v h
    simp [updateParamsFor, h]
  · intro h
    simp [updateParamsFor, h]
  · intro v h
    simp [updateParamsFor, h]
  · intro h
    simp [updateParamsFor, h]
  · intro v h
    simp [updateParamsFor, h]
  · intro h
    simp [updateParamsFor, h]

/-- C1 witness: the amended theorem at the empty current policy — the
update call is issued once with the configured default for the minimum
length. -/
theorem c1_witness :
    (iamLambdaHandler ⟨12, 90, 12⟩ ⟨Except.ok emptyPolicy, Except.ok ()⟩
        ⟨some ⟨some "WARN"⟩⟩).2 =
      [IAMCall.getAccountPasswordPolicy,
       IAMCall.updateAccountPasswordPolicy (updateParamsFor ⟨12, 90, 12⟩ emptyPolicy)] ∧
    (updateParamsFor ⟨12, 90, 12⟩ emptyPolicy).minimumPasswordLength = 12 :=
  ⟨(c1_merge_update ⟨12, 90, 12⟩ (Except.ok ()) emptyPolicy).1,
   (c1_merge_update ⟨12, 90, 12⟩ (Except.ok ()) emptyPolicy).2.2.1 rfl⟩

/-! ## C3 / C10 — RDS idle-database threshold gate -/

/-- Is a call a stop call? -/
def isStopCall : RDSCall → Bool
  | .stopDbInstance _ => true
  | _ => false

/-- Is a call a delete call? -/
def isDeleteCall : RDSCall → Bool
  | .deleteDbInstance _ _ => true
  | _ => false

theorem stopDbInstance_counts (cfg : RDSConfig) (prov : RDSProvider) (name : Option String) :
    (stopDbInstance cfg prov name).2.countP isMutatingRDSCall = 1 ∧
    (stopDbInstance cfg prov name).2.countP isStopCall = 1 ∧
    (stopDbInstance cfg prov name).2.countP isDeleteCall = 0 := by
  cases hs : prov.stopResult with
  | ok u =>
    simp only [stopDbInstance, hs, sendNotification]
    split_ifs <;>
      simp [isMutatingRDSCall, isStopCall, isDeleteCall, List.countP_cons, List.countP_nil]
  | error code =>
    simp only [stopDbInstance, hs]
    split_ifs <;>
      simp [isMutatingRDSCall, isStopCall, isDeleteCall, List.countP_cons, List.countP_nil]

theorem deleteDbInstance_counts (cfg : RDSConfig) (prov : RDSProvider) (name : Option String) :
    (deleteDbInstance cfg prov name).2.countP isMutatingRDSCall = 1 ∧
    (deleteDbInstance cfg prov name).2.countP isStopCall = 0 ∧
    (deleteDbInstance cfg prov name).2.countP isDeleteCall = 1 := by
  cases hs : prov.deleteResult with
  | ok u =>
    simp only [deleteDbInstance, hs, sendNotification]
    split_ifs <;>
      simp [isMutatingRDSCall, isStopCall, isDeleteCall, List.countP_cons, List.countP_nil]
  | error code =>
    simp only [deleteDbInstance, hs]
    split_ifs <;>
      simp [isMutatingRDSCall, isStopCall, isDeleteCall, List.countP_cons, List.countP_nil]

/-- C3: when the parsed "Days Since Last Connection" value is below the
configured minimum age, the handler returns status 200 with the
below-threshold body and makes no provider call at all; when it is at or
above the threshold, exactly one mutating (stop-or-delete) call is issued —
a delete call in `delete` mode and a stop call otherwise. -/
theorem c3_threshold_gate (cfg : RDSConfig) (prov : RDSProvider)
    (details : RDSCheckItemDetail) (v : Int)
    (hp : parseDays (details.daysSinceLastConnection.getD "0") = some v) :
    (v < cfg.minAge →
      rdsLambdaHandler cfg prov ⟨some ⟨some details⟩⟩ =
        (Except.ok ⟨200, some "Below threshold, no action taken"⟩, [])) ∧
    (cfg.minAge ≤ v →
      ((rdsLambdaHandler cfg prov ⟨some ⟨some details⟩⟩).2.countP isMutatingRDSCall = 1 ∧
       (cfg.terminationMethod = "delete" →
         (rdsLambdaHandler cfg prov ⟨some ⟨some details⟩⟩).2.countP isDeleteCall = 1) ∧
       (cfg.terminationMethod ≠ "delete" →
         (rdsLambdaHandler cfg prov ⟨some ⟨some details⟩⟩).2.countP isStopCall = 1))) := by
  constructor
  · intro hlt
    simp [rdsLambdaHandler, hp, hlt]
  · intro hge
    have hnlt : ¬ (v < cfg.minAge) := not_lt.mpr hge
    by_cases hm : cfg.terminationMethod = "delete"
    · simp only [rdsLambdaHandler, hp, if_neg hnlt, if_pos hm]
      exact ⟨(deleteDbInstance_counts cfg prov details.dbInstanceName).1,
        fun _ => (deleteDbInstance_counts cfg prov details.dbInstanceName).2.2,
        fun h => absurd hm h⟩
    · simp only [rdsLambdaHandler, hp, if_neg hnlt, if_neg hm]
      exact ⟨(stopDbInstance_counts cfg prov details.dbInstanceName).1,
        fun h => absurd h hm,
        fun _ => (stopDbInstance_counts cfg prov details.dbInstanceName).2.1⟩

/-- C3 witness: a 20-day-idle instance with threshold 14 in `stop` mode
issues exactly one stop call; instantiating the same theorem at 5 days
yields the below-threshold result. -/
theorem c3_witness :
    (rdsLambdaHandler ⟨14, "stop", "", "1"⟩ ⟨Except.ok (), Except.ok (), Except.ok ()⟩
        ⟨some ⟨some ⟨some "us-east-1", some "db1", some "20"⟩⟩⟩).2.countP isStopCall = 1 ∧
    rdsLambdaHandler ⟨14, "stop", "", "1"⟩ ⟨Except.ok (), Except.ok (), Except.ok ()⟩
        ⟨some ⟨some ⟨some "us-east-1", some "db1", some "5"⟩⟩⟩ =
      (Except.ok ⟨200, some "Below threshold, no action taken"⟩, []) :=
  ⟨((c3_threshold_gate ⟨14, "stop", "", "1"⟩ ⟨Except.ok (), Except.ok (), Except.ok ()⟩
      ⟨some "us-east-1", some "db1", some "20"⟩ 20 (by decide)).2 (by decide)).2.2 (by decide),
   (c3_threshold_gate ⟨14, "stop", "", "1"⟩ ⟨Except.ok (), Except.ok (), Except.ok ()⟩
      ⟨some "us-east-1", some "db1", some "5"⟩ 5 (by decide)).1 (by decide)⟩

/-- C10: an event whose check-item-detail lacks the "Days Since Last
Connection" key defaults the value to `'0'`; with any positive threshold
the handler returns the below-threshold status-200 result and makes no
provider call, raising no validation error. -/
theorem c10_missing_days (cfg : RDSConfig) (prov : RDSProvider)
    (region dbname : Option String) (h : 0 < cfg.minAge) :
    rdsLambdaHandler cfg prov ⟨some ⟨some ⟨region, dbname, none⟩⟩⟩ =
      (Except.ok ⟨200, some "Below threshold, no action taken"⟩, []) := by
  have hp : parseDays "0" = some 0 := by decide
  simp [rdsLambdaHandler, hp, h]

/-- C10 witness: the default threshold 14 with a missing measured value. -/
theorem c10_witness :
    rdsLambdaHandler ⟨14, "stop", "", "1"⟩ ⟨Except.ok (), Except.ok (), Except.ok ()⟩
        ⟨some ⟨some ⟨some "us-east-1", some "db1", none⟩⟩⟩ =
      (Except.ok ⟨200, some "Below threshold, no action taken"⟩, []) :=
  c10_missing_days ⟨14, "stop", "", "1"⟩ ⟨Except.ok (), Except.ok (), Except.ok ()⟩
    (some "us-east-1") (some "db1") (by decide)

/-! ## C2 — notification-delivery failures -/

/-- A concrete exposed-access-key event. -/
def c2Event : NotifyEvent :=
  { accountId := "111122223333"
    username := "alice"
    deletedKey := "AKIAEXAMPLE"
    exposedLocation := "https://example.com/leak"
    timeDiscovered := "2024-01-01T00:00:00Z"
    eventNames := [("ListBuckets", "3")]
    resourceNames := [("bucket-a", "2")]
    resourceTypes := [("AWS::S3::Bucket", "2")] }

/-- C2 counterexample: an SNS `ClientError` inside `_publish_sns` of
notify_security.py is logged and then RE-RAISED, so the handler's result
differs from the success case — this notification-delivery error
propagates out of the handler, contradicting the claim for "every
handler". -/
theorem c2_counterexample :
    (notifySecurityHandler ⟨"arn:aws:sns:us-east-1:111122223333:alerts", ""⟩
        ⟨Except.error "InternalError", true⟩ c2Event).1 =
      Except.error (PyErr.clientError "InternalError") ∧
    (notifySecurityHandler ⟨"arn:aws:sns:us-east-1:111122223333:alerts", ""⟩
        ⟨Except.ok (), true⟩ c2Event).1 = Except.ok ⟨200, none⟩ :=
  ⟨rfl, rfl⟩

/-- C2 (amended): the SNS publish outcome never affects the RDS handler's
output, and the Slack POST outcome never affects the exposed-key
notifier's output; but an SNS `ClientError` in the exposed-key notifier
propagates out of that handler, and a Slack delivery failure in the
cost-webhook handler propagates out of that handler. -/
theorem c2_notification_errors :
    (∀ (cfg : RDSConfig) (stopRes delRes a b : ApiResult Unit) (ev : RDSEvent),
      rdsLambdaHandler cfg ⟨stopRes, delRes, a⟩ ev =
        rdsLambdaHandler cfg ⟨stopRes, delRes, b⟩ ev) ∧
    (∀ (cfg : NotifyConfig) (sns : ApiResult Unit) (a b : Bool) (ev : NotifyEvent),
      notifySecurityHandler cfg ⟨sns, a⟩ ev = notifySecurityHandler cfg ⟨sns, b⟩ ev) ∧
    (∀ (cfg : NotifyConfig) (b : Bool) (code : String) (ev : NotifyEvent),
      (notifySecurityHandler cfg ⟨Except.error code, b⟩ ev).1 =
        Except.error (PyErr.clientError code)) ∧
    (∀ (checks : List TACheck) (summaries : List TASummary) (ev : SlackEvent),
      (ev.slackWebhookUrl == "") = false →
      pyStartsWith ev.slackWebhookUrl "<" = false →
      pyStartsWith ev.slackWebhookUrl "https://" = true →
      (slackWebhookHandler ⟨Except.ok checks, Except.ok summaries, false⟩ ev).1 =
        Except.error (PyErr.otherError "Failed to send Slack notification")) := by
  refine ⟨?_, ?_, ?_, ?_⟩
  · intro cfg stopRes delRes a b ev
    rfl
  · intro cfg sns a b ev
    rfl
  · intro cfg b code ev
    rfl
  · intro checks summaries ev h1 h2 h3
    simp [slackWebhookHandler, h1, h2, h3]

/-- C2 witness: the cost-webhook handler with a valid HTTPS URL and a
failing Slack POST propagates the delivery error. -/
theorem c2_witness :
    (slackWebhookHandler ⟨Except.ok [], Except.ok [], false⟩
        ⟨"https://hooks.example.com/x"⟩).1 =
      Except.error (PyErr.otherError "Failed to send Slack notification") :=
  c2_notification_errors.2.2.2 [] [] ⟨"https://hooks.example.com/x"⟩
    (by decide) (by decide) (by decide)

/-! ## C4 — executor error taxonomy -/

/-- C4 counterexample: `_enable_versioning` absorbs `AccessDenied` — an
error that means neither "resource vanished" nor "already in desired
state" — into a status-200 result instead of re-raising it, so "every
other provider error is re-raised" fails on the bucket-versioning
executor. -/
theorem c4_counterexample :
    (s3vLambdaHandler ⟨"DisableVersioning"⟩
        ⟨Except.error "NoSuchTagSet", Except.error "AccessDenied"⟩
        ⟨some ⟨some ⟨some "bucket-a"⟩⟩⟩).1 =
      Except.ok ⟨200, some "Bucket bucket-a not accessible: AccessDenied"⟩ := rfl

/-- C4 (amended): the RDS stop executor absorbs `DBInstanceNotFound` and
`InvalidDBInstanceState` into status-200 results and re-raises every other
error; the RDS delete executor absorbs `DBInstanceNotFound` and re-raises
every other error; the EIP handler absorbs `InvalidAddress.NotFound` on
the address lookup and re-raises other lookup errors, and on release
absorbs only `DryRunOperation`; the bucket-versioning executor absorbs
`NoSuchBucket` and additionally `AccessDenied` as "not accessible",
re-raising everything else. -/
theorem c4_error_taxonomy :
    (∀ (cfg : RDSConfig) (del sns : ApiResult Unit) (name : Option String),
      (stopDbInstance cfg ⟨Except.error "DBInstanceNotFound", del, sns⟩ name).1 =
        Except.ok ⟨200, some (jsonMessage ("DB instance " ++ pyStr name ++ " not found"))⟩) ∧
    (∀ (cfg : RDSConfig) (del sns : ApiResult Unit) (name : Option String),
      (stopDbInstance cfg ⟨Except.error "InvalidDBInstanceState", del, sns⟩ name).1 =
        Except.ok ⟨200, some (jsonMessage ("DB instance " ++ pyStr name ++ " already stopped"))⟩) ∧
    (∀ (cfg : RDSConfig) (del sns : ApiResult Unit) (name : Option String) (code : String),
      code ≠ "DBInstanceNotFound" → code ≠ "InvalidDBInstanceState" →
      (stopDbInstance cfg ⟨Except.error code, del, sns⟩ name).1 =
        Except.error (PyErr.clientError code)) ∧
    (∀ (cfg : RDSConfig) (stop sns : ApiResult Unit) (name : Option String),
      (deleteDbInstance cfg ⟨stop, Except.error "DBInstanceNotFound", sns⟩ name).1 =
        Except.ok ⟨200, some (jsonMessage ("DB instance " ++ pyStr name ++ " not found"))⟩) ∧
    (∀ (cfg : RDSConfig) (stop sns : ApiResult Unit) (name : Option String) (code : String),
      code ≠ "DBInstanceNotFound" →
      (deleteDbInstance cfg ⟨stop, Except.error code, sns⟩ name).1 =
        Except.error (PyErr.clientError code)) ∧
    (∀ (cfg : EIPConfig) (tags : ApiResult (List Tag)) (rel : ApiResult Unit)
        (region ip : String), region ≠ "" → ip ≠ "" →
      (eipLambdaHandler cfg ⟨Except.error "InvalidAddress.NotFound", tags, rel⟩
          ⟨some ⟨some ⟨some region, some ip⟩⟩⟩).1 =
        Except.ok ⟨200, some ("Elastic IP " ++ ip ++ " not found")⟩) ∧
    (∀ (cfg : EIPConfig) (tags : ApiResult (List Tag)) (rel : ApiResult Unit)
        (region ip code : String), region ≠ "" → ip ≠ "" →
      code ≠ "InvalidAddress.NotFound" →
      (eipLambdaHandler cfg ⟨Except.error code, tags, rel⟩
          ⟨some ⟨some ⟨some region, some ip⟩⟩⟩).1 =
        Except.error (PyErr.clientError code)) ∧
    (∀ (cfg : EIPConfig) (descr : ApiResult (List Address)) (tags : ApiResult (List Tag))
        (eip alloc : String),
      (releaseAddress cfg ⟨descr, tags, Except.error "DryRunOperation"⟩ eip alloc).1 =
        Except.ok ⟨200, some ("DryRun: Would release " ++ eip)⟩) ∧
    (∀ (cfg : EIPConfig) (descr : ApiResult (List Address)) (tags : ApiResult (List Tag))
        (eip alloc code : String), code ≠ "DryRunOperation" →
      (releaseAddress cfg ⟨descr, tags, Except.error code⟩ eip alloc).1 =
        Except.error (PyErr.clientError code)) ∧
    (∀ (tags : ApiResult (List Tag)) (bucket code : String),
      code = "NoSuchBucket" ∨ code = "AccessDenied" →
      (enableVersioning ⟨tags, Except.error code⟩ bucket).1 =
        Except.ok ⟨200, some ("Bucket " ++ bucket ++ " not accessible: " ++ code)⟩) ∧
    (∀ (tags : ApiResult (List Tag)) (bucket code : String),
      code ≠ "NoSuchBucket" → code ≠ "AccessDenied" →
      (enableVersioning ⟨tags, Except.error code⟩ bucket).1 =
        Except.error (PyErr.clientError code)) := by
  refine ⟨?_, ?_, ?_, ?_, ?_, ?_, ?_, ?_, ?_, ?_, ?_⟩
  · intro cfg del sns name
    rfl
  · intro cfg del sns name
    rfl
  · intro cfg del sns name code h1 h2
    simp [stopDbInstance, h1, h2]
  · intro cfg stop sns name
    rfl
  · intro cfg stop sns name code h1
    simp [deleteDbInstance, h1]
  · intro cfg tags rel region ip hr hi
    simp [eipLambdaHandler, pyTruthy, pyStr, hr, hi]
  · intro cfg tags rel region ip code hr hi hc
    simp [eipLambdaHandler, pyTruthy, pyStr, hr, hi, hc]
  · intro cfg descr tags eip alloc
    rfl
  · intro cfg descr tags eip alloc code hc
    simp [releaseAddress, hc]
  · intro tags bucket code hc
    simp [enableVersioning, hc]
  · intro tags bucket code h1 h2
    simp [enableVersioning, h1, h2]

/-- C4 witness: an unexpected `ThrottlingException` on the stop call is
re-raised. -/
theorem c4_witness :
    (stopDbInstance ⟨14, "stop", "", "1"⟩
        ⟨Except.error "ThrottlingException", Except.ok (), Except.ok ()⟩ (some "db1")).1 =
      Except.error (PyErr.clientError "ThrottlingException") :=
  c4_error_taxonomy.2.2.1 ⟨14, "stop", "", "1"⟩ (Except.ok ()) (Except.ok ()) (some "db1")
    "ThrottlingException" (by decide) (by decide)

/-! ## C5 — lifecycle executor idempotence -/

/-- C5: when some fetched rule already has
`AbortIncompleteMultipartUpload.DaysAfterInitiation == 7` the executor
issues no put and leaves the rule set unchanged; and re-running the
executor on the state produced by a successful first run performs no
second put and no fatal error (the executor is total). -/
theorem c5_lifecycle_idempotent :
    (∀ (prov : MPUProvider) (bucket : String) (rules : List LifecycleRule),
      prov.clientOk = true → prov.getOtherError = none →
      (∃ r ∈ rules, r.abortDaysAfterInitiation = some 7) →
      applyLifecyclePolicy prov bucket ⟨some rules⟩ =
        (⟨some rules⟩, [S3LCall.getBucketLifecycleConfiguration bucket])) ∧
    (∀ (bucket : String) (st : BucketLifecycle),
      applyLifecyclePolicy ⟨true, none, none⟩ bucket
          (applyLifecyclePolicy ⟨true, none, none⟩ bucket st).1 =
        ((applyLifecyclePolicy ⟨true, none, none⟩ bucket st).1,
         [S3LCall.getBucketLifecycleConfiguration bucket])) := by
  constructor
  · rintro prov bucket rules hc hg ⟨r, hr, h7⟩
    have hany : rules.any (fun r => r.abortDaysAfterInitiation == some 7) = true :=
      List.any_eq_true.mpr ⟨r, hr, by simp [h7]⟩
    simp [applyLifecyclePolicy, hc, hg, hany]
  · intro bucket st
    rcases st with ⟨rs⟩
    cases rs with
    | none =>
      simp [applyLifecyclePolicy, abortRule]
    | some rules =>
      by_cases hany : rules.any (fun r => r.abortDaysAfterInitiation == some 7) = true
      · simp [applyLifecyclePolicy, hany]
      · simp [applyLifecyclePolicy, hany, abortRule]

/-- C5 witness: a bucket whose rule set already aborts after 7 days gets
no put call and an unchanged rule set. -/
theorem c5_witness :
    applyLifecyclePolicy ⟨true, none, none⟩ "bucket-a"
        ⟨some [⟨some "custom", some "Enabled", some 7⟩]⟩ =
      (⟨some [⟨some "custom", some "Enabled", some 7⟩]⟩,
       [S3LCall.getBucketLifecycleConfiguration "bucket-a"]) :=
  c5_lifecycle_idempotent.1 ⟨true, none, none⟩ "bucket-a"
    [⟨some "custom", some "Enabled", some 7⟩] rfl rfl
    ⟨⟨some "custom", some "Enabled", some 7⟩, by simp, rfl⟩

/-! ## C8 — webhook URL validation -/

/-- A concrete exposed-access-key event for the webhook claims. -/
def c8Event : NotifyEvent :=
  { accountId := "444455556666"
    username := "bob"
    deletedKey := "AKIASAMPLE"
    exposedLocation := "https://example.org/paste"
    timeDiscovered := "2024-02-02T00:00:00Z"
    eventNames := []
    resourceNames := []
    resourceTypes := [] }

/-- C8 counterexample: `_notify_slack` of notify_security.py performs no
HTTPS or placeholder validation — with a configured non-HTTPS webhook URL
the POST is issued anyway, contradicting the claim for "every handler
that posts to a configured webhook URL". -/
theorem c8_counterexample :
    pyStartsWith "http://hooks.example.com/x" "https://" = false ∧
    NotifyCall.httpPost "http://hooks.example.com/x"
        (notifySubject c8Event ++ " Check email for details.") ∈
      (notifySecurityHandler ⟨"arn:topic", "http://hooks.example.com/x"⟩
        ⟨Except.ok (), true⟩ c8Event).2 := by
  refine ⟨by decide, ?_⟩
  simp [notifySecurityHandler]

/-- C8 (amended): the cost-webhook handler returns status 400 and issues
no call at all when the configured URL is empty, a placeholder, or not
HTTPS, and any POST it issues targets the validated HTTPS URL; the
exposed-key notifier, by contrast, validates nothing and POSTs to any
nonempty configured webhook URL. -/
theorem c8_webhook_validation :
    (∀ (prov : SlackProvider) (ev : SlackEvent),
      pyStartsWith ev.slackWebhookUrl "https://" = false →
      (∃ msg, slackWebhookHandler prov ev = (Except.ok ⟨400, some msg⟩, []))) ∧
    (∀ (prov : SlackProvider) (ev : SlackEvent) (u t : String),
      SupportCall.httpPost u t ∈ (slackWebhookHandler prov ev).2 →
      u = ev.slackWebhookUrl ∧ pyStartsWith ev.slackWebhookUrl "https://" = true) ∧
    (∀ (cfg : NotifyConfig) (b : Bool) (ev : NotifyEvent),
      cfg.slackWebhookUrl ≠ "" →
      NotifyCall.httpPost cfg.slackWebhookUrl
          (notifySubject ev ++ " Check email for details.") ∈
        (notifySecurityHandler cfg ⟨Except.ok (), b⟩ ev).2) := by
  refine ⟨?_, ?_, ?_⟩
  · intro prov ev h
    by_cases h1 : (ev.slackWebhookUrl == "" || pyStartsWith ev.slackWebhookUrl "<") = true
    · exact ⟨"Invalid webhook URL", by simp [slackWebhookHandler, h1]⟩
    · exact ⟨"Webhook URL must use HTTPS", by simp [slackWebhookHandler, h1, h]⟩
  · intro prov ev u t
    rcases prov with ⟨checksRes, summariesRes, postOk⟩
    simp only [slackWebhookHandler]
    split_ifs with h1 h2
    · intro hmem
      simp at hmem
    · intro hmem
      simp at hmem
    all_goals
      have h3 : pyStartsWith ev.slackWebhookUrl "https://" = true := by
        revert h2
        cases pyStartsWith ev.slackWebhookUrl "https://" <;> simp
      cases checksRes with
      | error code =>
        intro hmem
        simp at hmem
      | ok checks =>
        cases summariesRes with
        | error code =>
          intro hmem
          simp at hmem
        | ok summaries =>
          intro hmem
          simp at hmem
          exact ⟨hmem.1, h3⟩
  · intro cfg b ev h
    simp [notifySecurityHandler, h]

/-- C8 witness: the exposed-key notifier POSTs to a configured HTTPS
webhook URL. -/
theorem c8_witness :
    NotifyCall.httpPost "https://hooks.example.com/ok"
        (notifySubject c8Event ++ " Check email for details.") ∈
      (notifySecurityHandler ⟨"arn:topic", "https://hooks.example.com/ok"⟩
        ⟨Except.ok (), true⟩ c8Event).2 :=
  c8_webhook_validation.2.2 ⟨"arn:topic", "https://hooks.example.com/ok"⟩ true c8Event
    (by decide)

/-! ## C9 — unreadable exclusion tags never block remediation -/

/-- C9: when the tag-fetch call fails with any `ClientError` code
(including access denied), both exclusion guards return "not excluded"
and the respective pipeline proceeds to its mutating call rather than
skipping. -/
theorem c9_tag_error_proceeds :
    (∀ (cfg : S3VConfig) (putRes : ApiResult Unit) (code : String),
      hasExclusionTag cfg ⟨Except.error code, putRes⟩ = false) ∧
    (∀ (cfg : EIPConfig) (descr : ApiResult (List Address)) (rel : ApiResult Unit)
        (code : String),
      shouldExclude cfg ⟨descr, Except.error code, rel⟩ = false) ∧
    (∀ (cfg : S3VConfig) (putRes : ApiResult Unit) (code bucket : String), bucket ≠ "" →
      S3VCall.putBucketVersioning bucket ∈
        (s3vLambdaHandler cfg ⟨Except.error code, putRes⟩ ⟨some ⟨some ⟨some bucket⟩⟩⟩).2) ∧
    (∀ (cfg : EIPConfig) (relRes : ApiResult Unit) (code region ip : String)
        (addr : Address) (rest : List Address), region ≠ "" → ip ≠ "" →
      EC2Call.releaseAddress cfg.dryRun addr.allocationId ∈
        (eipLambdaHandler cfg ⟨Except.ok (addr :: rest), Except.error code, relRes⟩
          ⟨some ⟨some ⟨some region, some ip⟩⟩⟩).2) := by
  refine ⟨?_, ?_, ?_, ?_⟩
  · intro cfg putRes code
    rfl
  · intro cfg descr rel code
    rfl
  · intro cfg putRes code bucket hb
    cases putRes with
    | ok u =>
      simp [s3vLambdaHandler, pyTruthy, pyStr, hasExclusionTag, enableVersioning, hb]
    | error c2 =>
      by_cases h1 : c2 = "NoSuchBucket" ∨ c2 = "AccessDenied" <;>
        simp [s3vLambdaHandler, pyTruthy, pyStr, hasExclusionTag, enableVersioning, hb, h1]
  · intro cfg relRes code region ip addr rest hr hi
    cases relRes with
    | ok u =>
      simp [eipLambdaHandler, pyTruthy, pyStr, shouldExclude, releaseAddress, hr, hi]
    | error c2 =>
      by_cases h1 : c2 = "DryRunOperation" <;>
        simp [eipLambdaHandler, pyTruthy, pyStr, shouldExclude, releaseAddress, hr, hi, h1]

/-- C9 witness: an `AccessDenied` on the bucket-tagging lookup still lets
the versioning executor run. -/
theorem c9_witness :
    S3VCall.putBucketVersioning "bucket-a" ∈
      (s3vLambdaHandler ⟨"DisableVersioning"⟩ ⟨Except.error "AccessDenied", Except.ok ()⟩
        ⟨some ⟨some ⟨some "bucket-a"⟩⟩⟩).2 :=
  c9_tag_error_proceeds.2.2.1 ⟨"DisableVersioning"⟩ (Except.ok ()) "AccessDenied" "bucket-a"
    (by decide)

end TrustedAdvisor
